import Mathlib

/-!
Verification of the premium-quoting core of `insurtech_guy/agent.py`.

Shallow embedding conventions:
* Python `float` currency amounts are modelled as `ℚ`; integer inputs
  (ages, license years) as `ℤ`.
* Python dicts (which preserve insertion order) are modelled as
  association lists `List (String × _)`; `dict[k]` with a possible
  `KeyError` is `pyDictGet`, an `Except` whose `.error` constructor
  models an uncaught Python exception escaping the function.
* `str.lower()` / `str.strip()` are modelled by `strLower` / `strStrip`,
  ASCII case-folding and whitespace trimming; every string in the
  program's reference tables is ASCII, where Python's Unicode-aware
  versions coincide with these.
* Python `round(x, 2)` is modelled by `round2` (round half-up on exact
  rationals). Python rounds half-to-even on binary floats; the two agree
  except at exact half-cent ties, which no concrete claim exercises.
* Functions that in Python either return a result dict or raise are
  modelled as `Except String r`, where `r` distinguishes an
  `{"error": ...}` payload (`.err`) from a success payload.
-/

/-- ASCII lowercase of one character: models `str.lower` on ASCII data. -/
def charLower (c : Char) : Char :=
  match c with
  | 'A' => 'a' | 'B' => 'b' | 'C' => 'c' | 'D' => 'd' | 'E' => 'e' | 'F' => 'f'
  | 'G' => 'g' | 'H' => 'h' | 'I' => 'i' | 'J' => 'j' | 'K' => 'k' | 'L' => 'l'
  | 'M' => 'm' | 'N' => 'n' | 'O' => 'o' | 'P' => 'p' | 'Q' => 'q' | 'R' => 'r'
  | 'S' => 's' | 'T' => 't' | 'U' => 'u' | 'V' => 'v' | 'W' => 'w' | 'X' => 'x'
  | 'Y' => 'y' | 'Z' => 'z' | c => c

/-- ASCII whitespace test used by `strStrip`. -/
def isSpaceChar (c : Char) : Bool := c == ' ' || c == '\t' || c == '\n' || c == '\r'

/-- Models Python `str.lower()` on the ASCII strings this program uses. -/
def strLower (s : String) : String := ⟨s.data.map charLower⟩

/-- Models Python `str.strip()` on the ASCII strings this program uses. -/
def strStrip (s : String) : String :=
  ⟨((s.data.dropWhile isSpaceChar).reverse.dropWhile isSpaceChar).reverse⟩

/-- Models Python `round(x, 2)`. -/
def round2 (x : ℚ) : ℚ := (round (x * 100) : ℤ) / 100

/-- One entry of the `INSURERS` table of `agent.py`. -/
structure Insurer where
  name : String
  multiplier : ℚ
  reputation : String
  available_add_ons : List String
  special_features : List String
deriving DecidableEq

/-- One entry of the `COVERAGE_TIERS` table of `agent.py`. -/
structure CoverageTier where
  name : String
  price_multiplier : ℚ
  minimum_annual : ℚ
  includes : List String
deriving DecidableEq

/-- One entry of the `ADD_ONS` table of `agent.py`. -/
structure AddOn where
  name : String
  annual_cost : ℚ
deriving DecidableEq

/-- The `"GEICO"` entry of the `INSURERS` dict. -/
def geico : Insurer :=
  { name := "GEICO", multiplier := 95/100,
    reputation := "Budget-friendly, fast quotes",
    available_add_ons := ["roadside_assistance", "rental_car"],
    special_features := [] }

/-- The `"Progressive"` entry of the `INSURERS` dict. -/
def progressive : Insurer :=
  { name := "Progressive", multiplier := 98/100,
    reputation := "Innovative, name-your-price",
    available_add_ons := ["roadside_assistance", "rental_car", "accident_forgiveness"],
    special_features := [] }

/-- The `"StateFarm"` entry of the `INSURERS` dict. -/
def stateFarm : Insurer :=
  { name := "StateFarm", multiplier := 1,
    reputation := "Like a good neighbor, reliable",
    available_add_ons := ["roadside_assistance", "rental_car", "gap_insurance", "accident_forgiveness"],
    special_features := [] }

/-- The `"Allstate"` entry of the `INSURERS` dict. -/
def allstate : Insurer :=
  { name := "Allstate", multiplier := 105/100,
    reputation := "You're in good hands",
    available_add_ons := ["roadside_assistance", "gap_insurance", "accident_forgiveness"],
    special_features := [] }

/-- The `"Travelers"` entry of the `INSURERS` dict. -/
def travelers : Insurer :=
  { name := "Travelers", multiplier := 108/100,
    reputation := "Premium service, established since 1853",
    available_add_ons := ["roadside_assistance", "rental_car", "gap_insurance", "accident_forgiveness", "oem_parts_guarantee"],
    special_features := ["concierge_claims_service"] }

/-- The `INSURERS` dict of `agent.py`, in insertion (registration) order. -/
def INSURERS : List (String × Insurer) := [
  ("GEICO", geico), ("Progressive", progressive), ("StateFarm", stateFarm),
  ("Allstate", allstate), ("Travelers", travelers)]

/-- The `"liability"` entry of the `COVERAGE_TIERS` dict. -/
def liabilityTier : CoverageTier :=
  { name := "Liability Only", price_multiplier := 30/100,
    minimum_annual := 700,
    includes := ["Bodily Injury Liability", "Property Damage Liability"] }

/-- The `"standard"` entry of the `COVERAGE_TIERS` dict. -/
def standardTier : CoverageTier :=
  { name := "Standard Coverage", price_multiplier := 1,
    minimum_annual := 2000,
    includes := ["Bodily Injury Liability", "Property Damage Liability",
                 "Collision Coverage", "Comprehensive Coverage", "Uninsured Motorist"] }

/-- The `"premium"` entry of the `COVERAGE_TIERS` dict. -/
def premiumTier : CoverageTier :=
  { name := "Premium Coverage", price_multiplier := 1,
    minimum_annual := 2500,
    includes := ["Everything in Standard", "Plus selected add-ons"] }

/-- The `COVERAGE_TIERS` dict of `agent.py`. -/
def COVERAGE_TIERS : List (String × CoverageTier) := [
  ("liability", liabilityTier), ("standard", standardTier), ("premium", premiumTier)]

/-- The `ADD_ONS` dict of `agent.py`. -/
def ADD_ONS : List (String × AddOn) := [
  ("roadside_assistance", { name := "Roadside Assistance", annual_cost := 50 }),
  ("rental_car", { name := "Rental Car Coverage", annual_cost := 75 }),
  ("gap_insurance", { name := "Gap Insurance", annual_cost := 100 }),
  ("accident_forgiveness", { name := "Accident Forgiveness", annual_cost := 150 }),
  ("oem_parts_guarantee", { name := "OEM Parts Guarantee", annual_cost := 75 }),
  ("concierge_claims", { name := "Concierge Claims Service", annual_cost := 0 })]

/-- The `BRAND_RATES` dict of `agent.py`. -/
def BRAND_RATES : List (String × ℚ) := [
  ("american", 5/100), ("japanese", 55/1000), ("german", 6/100), ("other", 65/1000)]

/-- The `CAR_BRANDS` dict of `agent.py`. -/
def CAR_BRANDS : List (String × List String) := [
  ("american", ["Ford", "Chevrolet", "Chevy", "Dodge", "GMC", "Jeep",
                "Cadillac", "Lincoln", "Buick", "Chrysler", "Ram"]),
  ("japanese", ["Toyota", "Honda", "Nissan", "Mazda", "Subaru",
                "Lexus", "Acura", "Infiniti", "Mitsubishi"]),
  ("german", ["BMW", "Mercedes", "Mercedes-Benz", "Audi",
              "Volkswagen", "VW", "Porsche", "Mini"])]

/-- The `AGE_ADJUSTMENT` dict of `agent.py`. -/
def AGE_ADJUSTMENT : List (String × ℚ) := [
  ("18-25", 115/100), ("26-60", 1), ("60+", 90/100)]

/-- The `EXPERIENCE_ADJUSTMENT` dict of `agent.py`. -/
def EXPERIENCE_ADJUSTMENT : List (String × ℚ) := [
  ("0-2", 120/100), ("3-5", 110/100), ("5+", 1)]

/-- Python `d[key]`: raises `KeyError` when the key is `None` (models
indexing a dict with Python `None`) or absent; the `.error` constructor
models that uncaught exception. -/
def pyDictGet {α : Type} (d : List (String × α)) (key : Option String) : Except String α :=
  match key with
  | none => .error "KeyError: None"
  | some k =>
    match d.lookup k with
    | none => .error ("KeyError: " ++ k)
    | some v => .ok v

/-- `get_brand_category` of `agent.py` (the local `brand_lower`
variable of the Python is inlined). -/
def get_brand_category (brand : String) : String :=
  match CAR_BRANDS.find? (fun cb => cb.2.any (fun b => strLower b == strStrip (strLower brand))) with
  | some cb => cb.1
  | none => "other"

/-- `get_age_bracket` of `agent.py`; Python `None` is `Option.none`. -/
def get_age_bracket (age : ℤ) : Option String :=
  if age < 18 then none
  else if age ≤ 25 then some "18-25"
  else if age ≤ 60 then some "26-60"
  else some "60+"

/-- `get_experience_bracket` of `agent.py`; Python `None` is `Option.none`. -/
def get_experience_bracket (years : ℤ) : Option String :=
  if years < 0 then none
  else if years ≤ 2 then some "0-2"
  else if years ≤ 5 then some "3-5"
  else some "5+"

/-- `get_addon_names` of `agent.py`. -/
def get_addon_names (insurer_name : String) : List String :=
  match INSURERS.lookup insurer_name with
  | none => []
  | some insurer =>
    (insurer.available_add_ons.filterMap (fun addon_id =>
      (ADD_ONS.lookup addon_id).map (fun a => a.name)))
    ++ (if insurer.special_features.contains "concierge_claims_service"
        then ["Concierge Service (FREE)"] else [])

/-- `get_addon_total` of `agent.py`. -/
def get_addon_total (insurer_name : String) : ℚ :=
  match INSURERS.lookup insurer_name with
  | none => 0
  | some insurer =>
    ((insurer.available_add_ons.filterMap (fun addon_id =>
      (ADD_ONS.lookup addon_id).map (fun a => a.annual_cost))).sum)

/-- One `{"name": ..., "cost": ...}` add-on entry of a quote. -/
structure AddOnDetail where
  name : String
  cost : ℚ
deriving DecidableEq

/-- The success payload returned by `calculate_premium`. -/
structure Quote where
  insurer : String
  reputation : String
  tier : String
  tier_name : String
  brand_category : String
  annual_premium : ℚ
  monthly_premium : ℚ
  add_ons : List AddOnDetail
  coverage_includes : List String
deriving DecidableEq

/-- The dict returned by `calculate_premium`: an `{"error": ...}` dict or
a success payload. -/
inductive QuoteOutcome where
  | err (msg : String)
  | success (q : Quote)
deriving DecidableEq

/-- `calculate_premium` of `agent.py`. The outer `Except` models Python
exceptions: `.error` is an uncaught `KeyError` (reachable when
`license_years < 0` makes `get_experience_bracket` return `None` and the
subsequent `EXPERIENCE_ADJUSTMENT[...]` lookup throws). -/
def calculate_premium (car_brand : String) (car_value : ℚ) (driver_age : ℤ)
    (license_years : ℤ) (insurer_name : String) (tier : String) :
    Except String QuoteOutcome :=
  if driver_age < 18 then .ok (.err "Driver must be at least 18 years old")
  else
    let brand_category := get_brand_category car_brand
    match pyDictGet BRAND_RATES (some brand_category) with
    | .error e => .error e
    | .ok base_rate =>
      let base_premium := car_value * base_rate
      match pyDictGet AGE_ADJUSTMENT (get_age_bracket driver_age) with
      | .error e => .error e
      | .ok age_multiplier =>
        match pyDictGet EXPERIENCE_ADJUSTMENT (get_experience_bracket license_years) with
        | .error e => .error e
        | .ok exp_multiplier =>
          match INSURERS.lookup insurer_name with
          | none => .ok (.err ("Unknown insurer: " ++ insurer_name))
          | some insurer =>
            match COVERAGE_TIERS.lookup tier with
            | none => .ok (.err ("Unknown tier: " ++ tier))
            | some tier_info =>
              let adjusted_premium :=
                base_premium * age_multiplier * exp_multiplier * tier_info.price_multiplier
              let floored_premium := max adjusted_premium tier_info.minimum_annual
              let final_premium := floored_premium * insurer.multiplier
              let add_on_total := if tier == "premium" then get_addon_total insurer_name else 0
              let add_on_details : List AddOnDetail :=
                if tier == "premium" then
                  (insurer.available_add_ons.filterMap (fun addon_id =>
                    (ADD_ONS.lookup addon_id).map (fun a =>
                      { name := a.name, cost := a.annual_cost })))
                  ++ (if insurer_name == "Travelers"
                      then [{ name := "Concierge Claims Service", cost := 0 }] else [])
                else []
              let total_premium := final_premium + add_on_total
              .ok (.success {
                insurer := insurer_name,
                reputation := insurer.reputation,
                tier := tier,
                tier_name := tier_info.name,
                brand_category := brand_category,
                annual_premium := round2 total_premium,
                monthly_premium := round2 (total_premium / 12),
                add_ons := add_on_details,
                coverage_includes := tier_info.includes })

/-- One quote entry returned by `get_insurance_quotes` for a tier. -/
structure AggQuote where
  insurer : String
  reputation : String
  annual_premium : ℚ
  monthly_premium : ℚ
  add_ons : List String
deriving DecidableEq

/-- The dict returned by `get_insurance_quotes`. -/
inductive QuotesOutcome where
  | err (msg : String)
  | success (car_brand : String) (car_value : ℚ) (quotes : List (String × List AggQuote))
deriving DecidableEq

/-- The comparison key of `quotes.sort(key=lambda x: x["annual_premium"])`. -/
def aggLe (a b : AggQuote) : Bool := decide (a.annual_premium ≤ b.annual_premium)

/-- The inner per-insurer loop of `get_insurance_quotes` for one tier,
before sorting: calculates every registered insurer's quote in
registration order (propagating any Python exception) and keeps the
successes. -/
def tier_quotes_unsorted (car_brand : String) (car_value : ℚ) (driver_age : ℤ)
    (license_years : ℤ) (tier : String) : Except String (List AggQuote) := do
  let results ← (INSURERS.map (fun p => p.1)).mapM (fun insurer_name =>
    calculate_premium car_brand car_value driver_age license_years insurer_name tier)
  pure (results.filterMap (fun r =>
    match r with
    | .success q =>
      some { insurer := q.insurer, reputation := q.reputation,
             annual_premium := q.annual_premium, monthly_premium := q.monthly_premium,
             add_ons := if tier == "premium" then get_addon_names q.insurer else [] }
    | .err _ => none))

/-- The tier-selection of `get_insurance_quotes` (lines choosing `tiers`):
`"all"` (case-insensitively) expands to the three tiers, a known tier id
selects itself, anything else is `none` (the unknown-tier error). -/
def selected_tiers (coverage_tier : String) : Option (List String) :=
  if strLower coverage_tier == "all" then some ["liability", "standard", "premium"]
  else if ["liability", "standard", "premium"].contains (strLower coverage_tier) then
    some [strLower coverage_tier]
  else none

/-- `get_insurance_quotes` of `agent.py`. Python's stable ascending
`list.sort` is `List.mergeSort`, which is stable. -/
def get_insurance_quotes (car_brand : String) (car_value : ℚ) (driver_age : ℤ)
    (license_years : ℤ) (coverage_tier : String) : Except String QuotesOutcome :=
  if driver_age < 18 then .ok (.err "Driver must be at least 18 years old.")
  else if car_value ≤ 0 then .ok (.err "Car value must be positive.")
  else
    match selected_tiers coverage_tier with
    | none => .ok (.err ("Unknown tier: " ++ coverage_tier))
    | some tiers =>
      match tiers.mapM (fun tier =>
          Except.map (fun quotes => (tier, quotes.mergeSort aggLe))
            (tier_quotes_unsorted car_brand car_value driver_age license_years tier)) with
      | .error e => .error e
      | .ok results => .ok (.success car_brand car_value results)

/-- The dict returned by `get_available_addons`. -/
inductive AddonsResult where
  | err (msg : String)
  | success (insurer : String) (available_add_ons : List AddOnDetail)
deriving DecidableEq

/-- `get_available_addons` of `agent.py`. The special-feature entry's
extra `"note"` field carries no data any claim concerns and is not
modelled. -/
def get_available_addons (insurer_name : String) : AddonsResult :=
  match INSURERS.lookup insurer_name with
  | none => .err ("Unknown insurer: " ++ insurer_name)
  | some insurer =>
    let addons := insurer.available_add_ons.filterMap (fun addon_id =>
      (ADD_ONS.lookup addon_id).map (fun a =>
        ({ name := a.name, cost := a.annual_cost } : AddOnDetail)))
    let addons := addons ++
      (if insurer.special_features.contains "concierge_claims_service"
       then [{ name := "Concierge Claims Service", cost := 0 }] else [])
    .success insurer_name addons

/-- Projection used in claim statements: the success payload of a
`calculate_premium` call, when it neither raised nor returned an error dict. -/
def quoteOf : Except String QuoteOutcome → Option Quote
  | .ok (.success q) => some q
  | _ => none

/-- The display name of an add-on id in the `ADD_ONS` catalog (spec-side
accessor used to state what the add-on list of a quote must contain). -/
def addonDisplayName (addon_id : String) : String :=
  ((ADD_ONS.lookup addon_id).map (fun a => a.name)).getD ""

/-- The annual cost of an add-on id in the `ADD_ONS` catalog (spec-side
accessor used to state what a premium-tier quote must charge). -/
def addonDisplayCost (addon_id : String) : ℚ :=
  ((ADD_ONS.lookup addon_id).map (fun a => a.annual_cost)).getD 0

/-! ## Supporting lemmas -/

/-- `round2` at a value whose scaled round is known. -/
theorem round2_eq (x : ℚ) (n : ℤ) (h1 : (n : ℚ) ≤ x * 100 + 1/2)
    (h2 : x * 100 + 1/2 < (n : ℚ) + 1) : round2 x = (n : ℚ) / 100 := by
  have hf : round (x * 100) = n := by
    rw [round_eq, Int.floor_eq_iff]
    exact ⟨h1, by linarith⟩
  unfold round2
  rw [hf]

/-- `get_brand_category` always lands in one of the four rating categories. -/
theorem get_brand_category_cases (b : String) :
    get_brand_category b = "american" ∨ get_brand_category b = "japanese" ∨
    get_brand_category b = "german" ∨ get_brand_category b = "other" := by
  unfold get_brand_category
  rcases h : CAR_BRANDS.find?
      (fun cb => cb.2.any (fun x => strLower x == strStrip (strLower b))) with _ | cb
  · rw [h]
    simp
  · rw [h]
    have hm : cb ∈ CAR_BRANDS := List.mem_of_find?_eq_some h
    fin_cases hm <;> simp

/-- The brand-rate lookup of `calculate_premium` cannot raise. -/
theorem brand_rate_ok (b : String) :
    ∃ r : ℚ, pyDictGet BRAND_RATES (some (get_brand_category b)) = .ok r := by
  rcases get_brand_category_cases b with h | h | h | h <;> rw [h] <;> exact ⟨_, rfl⟩

/-- For an eligible driver the age-adjustment lookup cannot raise. -/
theorem age_adjustment_ok (age : ℤ) (h : 18 ≤ age) :
    ∃ m : ℚ, pyDictGet AGE_ADJUSTMENT (get_age_bracket age) = .ok m := by
  unfold get_age_bracket
  rw [if_neg (by omega)]
  split_ifs <;> exact ⟨_, rfl⟩

/-- For non-negative license years the experience-adjustment lookup cannot raise. -/
theorem experience_adjustment_ok (years : ℤ) (h : 0 ≤ years) :
    ∃ m : ℚ, pyDictGet EXPERIENCE_ADJUSTMENT (get_experience_bracket years) = .ok m := by
  unfold get_experience_bracket
  rw [if_neg (by omega)]
  split_ifs <;> exact ⟨_, rfl⟩

/-- Structural description of `calculate_premium` on every input that passes
all of its checks: the rate factors are the table entries selected by the
classifiers, and the returned quote is the rounded composition
`max(base * age * experience * tier_mult, tier_min) * insurer_mult` plus the
premium-tier add-on charge. -/
theorem calculate_premium_spec (car_brand : String) (car_value : ℚ)
    (driver_age license_years : ℤ) (insurer_name tier : String)
    (ins : Insurer) (ti : CoverageTier)
    (hage : 18 ≤ driver_age) (hyears : 0 ≤ license_years)
    (hins : INSURERS.lookup insurer_name = some ins)
    (hti : COVERAGE_TIERS.lookup tier = some ti) :
    ∃ rate am em : ℚ,
      pyDictGet BRAND_RATES (some (get_brand_category car_brand)) = .ok rate ∧
      pyDictGet AGE_ADJUSTMENT (get_age_bracket driver_age) = .ok am ∧
      pyDictGet EXPERIENCE_ADJUSTMENT (get_experience_bracket license_years) = .ok em ∧
      calculate_premium car_brand car_value driver_age license_years insurer_name tier =
        .ok (.success
          { insurer := insurer_name
            reputation := ins.reputation
            tier := tier
            tier_name := ti.name
            brand_category := get_brand_category car_brand
            annual_premium := round2
              (max (car_value * rate * am * em * ti.price_multiplier) ti.minimum_annual
                  * ins.multiplier
                + (if tier == "premium" then get_addon_total insurer_name else 0))
            monthly_premium := round2
              ((max (car_value * rate * am * em * ti.price_multiplier) ti.minimum_annual
                  * ins.multiplier
                + (if tier == "premium" then get_addon_total insurer_name else 0)) / 12)
            add_ons :=
              (if tier == "premium" then
                (ins.available_add_ons.filterMap (fun addon_id =>
                  (ADD_ONS.lookup addon_id).map (fun a =>
                    { name := a.name, cost := a.annual_cost })))
                ++ (if insurer_name == "Travelers"
                    then [{ name := "Concierge Claims Service", cost := 0 }] else [])
              else [])
            coverage_includes := ti.includes }) := by
  obtain ⟨rate, hr⟩ := brand_rate_ok car_brand
  obtain ⟨am, ha⟩ := age_adjustment_ok driver_age hage
  obtain ⟨em, he⟩ := experience_adjustment_ok license_years hyears
  refine ⟨rate, am, em, hr, ha, he, ?_⟩
  unfold calculate_premium
  rw [if_neg (by omega)]
  simp only [hr, ha, he, hins, hti]

/-! ## Claim theorems -/

/-- C1: for every valid input (eligible age, non-negative license years —
negative years never reach the formula, they raise — and known insurer and
tier), the annual premium before add-ons equals
`max(value * brand_rate * age_mult * exp_mult * tier_mult, tier.minimum_annual) * insurer.multiplier`,
with the rate factors drawn from the tables by the classifiers; the
per-tier floor is applied before the insurer multiplier, so the
floor-adjusted amount is at least `tier.minimum_annual` before any insurer
multiplier (in particular one below 1) is applied. -/
theorem c1_tier_floor_before_insurer_multiplier (car_brand : String) (car_value : ℚ)
    (driver_age license_years : ℤ) (insurer_name tier : String)
    (ins : Insurer) (ti : CoverageTier)
    (hage : 18 ≤ driver_age) (hyears : 0 ≤ license_years)
    (hins : INSURERS.lookup insurer_name = some ins)
    (hti : COVERAGE_TIERS.lookup tier = some ti) :
    ∃ (rate am em : ℚ) (q : Quote),
      pyDictGet BRAND_RATES (some (get_brand_category car_brand)) = .ok rate ∧
      pyDictGet AGE_ADJUSTMENT (get_age_bracket driver_age) = .ok am ∧
      pyDictGet EXPERIENCE_ADJUSTMENT (get_experience_bracket license_years) = .ok em ∧
      calculate_premium car_brand car_value driver_age license_years insurer_name tier =
        .ok (.success q) ∧
      q.annual_premium = round2
        (max (car_value * rate * am * em * ti.price_multiplier) ti.minimum_annual
            * ins.multiplier
          + (if tier == "premium" then get_addon_total insurer_name else 0)) ∧
      ti.minimum_annual ≤
        max (car_value * rate * am * em * ti.price_multiplier) ti.minimum_annual := by
  obtain ⟨rate, am, em, hr, ha, he, hc⟩ :=
    calculate_premium_spec car_brand car_value driver_age license_years insurer_name tier
      ins ti hage hyears hins hti
  exact ⟨rate, am, em, _, hr, ha, he, hc, rfl, le_max_right _ _⟩

/-- Witness for C1 at a concrete input: GEICO (multiplier 0.95 < 1),
liability tier, Toyota worth 20000, driver 30 with 10 license years. -/
theorem c1_tier_floor_witness :
    (18 : ℤ) ≤ 30 ∧ (0 : ℤ) ≤ 10 ∧
    INSURERS.lookup "GEICO" = some geico ∧
    COVERAGE_TIERS.lookup "liability" = some liabilityTier ∧
    (∃ (rate am em : ℚ) (q : Quote),
      pyDictGet BRAND_RATES (some (get_brand_category "Toyota")) = .ok rate ∧
      pyDictGet AGE_ADJUSTMENT (get_age_bracket 30) = .ok am ∧
      pyDictGet EXPERIENCE_ADJUSTMENT (get_experience_bracket 10) = .ok em ∧
      calculate_premium "Toyota" 20000 30 10 "GEICO" "liability" = .ok (.success q) ∧
      q.annual_premium = round2
        (max ((20000 : ℚ) * rate * am * em * liabilityTier.price_multiplier)
            liabilityTier.minimum_annual * geico.multiplier
          + (if ("liability" : String) == "premium" then get_addon_total "GEICO" else 0)) ∧
      liabilityTier.minimum_annual ≤
        max ((20000 : ℚ) * rate * am * em * liabilityTier.price_multiplier)
          liabilityTier.minimum_annual) :=
  ⟨by norm_num, by norm_num, rfl, rfl,
    c1_tier_floor_before_insurer_multiplier "Toyota" 20000 30 10 "GEICO" "liability"
      geico liabilityTier (by norm_num) (by norm_num) rfl rfl⟩

/-- C7: for every valid input, the returned annual and monthly premiums are
each obtained by rounding the unrounded total to 2 decimals independently:
`annual = round2 F` and `monthly = round2 (F / 12)` for the same unrounded
total `F` (monthly is not derived from the rounded annual). -/
theorem c7_monthly_rounded_independently (car_brand : String) (car_value : ℚ)
    (driver_age license_years : ℤ) (insurer_name tier : String)
    (ins : Insurer) (ti : CoverageTier)
    (hage : 18 ≤ driver_age) (hyears : 0 ≤ license_years)
    (hins : INSURERS.lookup insurer_name = some ins)
    (hti : COVERAGE_TIERS.lookup tier = some ti) :
    ∃ (rate am em : ℚ) (q : Quote),
      pyDictGet BRAND_RATES (some (get_brand_category car_brand)) = .ok rate ∧
      pyDictGet AGE_ADJUSTMENT (get_age_bracket driver_age) = .ok am ∧
      pyDictGet EXPERIENCE_ADJUSTMENT (get_experience_bracket license_years) = .ok em ∧
      calculate_premium car_brand car_value driver_age license_years insurer_name tier =
        .ok (.success q) ∧
      q.annual_premium = round2
        (max (car_value * rate * am * em * ti.price_multiplier) ti.minimum_annual
            * ins.multiplier
          + (if tier == "premium" then get_addon_total insurer_name else 0)) ∧
      q.monthly_premium = round2
        ((max (car_value * rate * am * em * ti.price_multiplier) ti.minimum_annual
            * ins.multiplier
          + (if tier == "premium" then get_addon_total insurer_name else 0)) / 12) := by
  obtain ⟨rate, am, em, hr, ha, he, hc⟩ :=
    calculate_premium_spec car_brand car_value driver_age license_years insurer_name tier
      ins ti hage hyears hins hti
  exact ⟨rate, am, em, _, hr, ha, he, hc, rfl, rfl⟩

/-- Witness for C7 at a concrete input: Progressive, standard tier. -/
theorem c7_monthly_rounding_witness :
    (18 : ℤ) ≤ 45 ∧ (0 : ℤ) ≤ 20 ∧
    INSURERS.lookup "Progressive" = some progressive ∧
    COVERAGE_TIERS.lookup "standard" = some standardTier ∧
    (∃ (rate am em : ℚ) (q : Quote),
      pyDictGet BRAND_RATES (some (get_brand_category "Honda")) = .ok rate ∧
      pyDictGet AGE_ADJUSTMENT (get_age_bracket 45) = .ok am ∧
      pyDictGet EXPERIENCE_ADJUSTMENT (get_experience_bracket 20) = .ok em ∧
      calculate_premium "Honda" 30000 45 20 "Progressive" "standard" = .ok (.success q) ∧
      q.annual_premium = round2
        (max ((30000 : ℚ) * rate * am * em * standardTier.price_multiplier)
            standardTier.minimum_annual * progressive.multiplier
          + (if ("standard" : String) == "premium" then get_addon_total "Progressive" else 0)) ∧
      q.monthly_premium = round2
        ((max ((30000 : ℚ) * rate * am * em * standardTier.price_multiplier)
            standardTier.minimum_annual * progressive.multiplier
          + (if ("standard" : String) == "premium" then get_addon_total "Progressive" else 0)) / 12)) :=
  ⟨by norm_num, by norm_num, rfl, rfl,
    c7_monthly_rounded_independently "Honda" 30000 45 20 "Progressive" "standard"
      progressive standardTier (by norm_num) (by norm_num) rfl rfl⟩

/-- C6: a driver younger than 18 is rejected with the ineligibility error by
both `calculate_premium` and `get_insurance_quotes`, whatever the other
arguments are (including unknown insurer or tier ids); the error is the
whole result and no insurer is attempted. -/
theorem c6_underage_driver_rejected (car_brand : String) (car_value : ℚ)
    (driver_age license_years : ℤ) (insurer_name tier sel : String)
    (h : driver_age < 18) :
    calculate_premium car_brand car_value driver_age license_years insurer_name tier =
      .ok (.err "Driver must be at least 18 years old") ∧
    get_insurance_quotes car_brand car_value driver_age license_years sel =
      .ok (.err "Driver must be at least 18 years old.") := by
  constructor
  · unfold calculate_premium
    rw [if_pos h]
  · unfold get_insurance_quotes
    rw [if_pos h]

/-- Witness for C6: a 17-year-old driver with an unknown insurer and an
unknown tier still gets exactly the ineligibility error. -/
theorem c6_underage_driver_witness :
    (17 : ℤ) < 18 ∧
    calculate_premium "Frobnicator" 9999 17 2 "NoSuchInsurer" "megatier" =
      .ok (.err "Driver must be at least 18 years old") ∧
    get_insurance_quotes "Frobnicator" 9999 17 2 "megatier" =
      .ok (.err "Driver must be at least 18 years old.") :=
  ⟨by norm_num,
   c6_underage_driver_rejected "Frobnicator" 9999 17 2 "NoSuchInsurer" "megatier" "megatier"
     (by norm_num)⟩

/-- C4 (code bug): with negative license years and otherwise valid inputs,
`get_insurance_quotes` does not return a structured error value: the
`None` experience bracket makes `EXPERIENCE_ADJUSTMENT[None]` raise an
uncaught `KeyError` that escapes the public boundary (and so does
`calculate_premium` itself). -/
theorem c4_negative_license_years_raises :
    get_insurance_quotes "Toyota" 20000 30 (-1) "standard" = .error "KeyError: None" ∧
    calculate_premium "Toyota" 20000 30 (-1) "StateFarm" "standard" =
      .error "KeyError: None" :=
  ⟨rfl, rfl⟩

/-- C8 counterexample: called with an unknown insurer id, the public add-on
listing operation `get_available_addons` returns an error value, not an
empty list. -/
theorem c8_counterexample_error_for_unknown :
    get_available_addons "Acme" = .err "Unknown insurer: Acme" := rfl

/-- C8 (amended): for every unknown insurer id, the internal add-on
resolver `get_addon_names` returns an empty list (and `get_addon_total`
returns 0), while the public `get_available_addons` tool instead returns a
structured error value naming the unknown insurer. -/
theorem c8_unknown_insurer_behavior (s : String) (h : INSURERS.lookup s = none) :
    get_addon_names s = [] ∧ get_addon_total s = 0 ∧
    get_available_addons s = .err ("Unknown insurer: " ++ s) := by
  unfold get_addon_names get_addon_total get_available_addons
  rw [h]
  exact ⟨rfl, rfl, rfl⟩

/-- Witness for C8 at the unknown insurer id "Nimbus". -/
theorem c8_unknown_insurer_witness :
    INSURERS.lookup "Nimbus" = none ∧
    (get_addon_names "Nimbus" = [] ∧ get_addon_total "Nimbus" = 0 ∧
     get_available_addons "Nimbus" = .err ("Unknown insurer: " ++ "Nimbus")) :=
  ⟨rfl, c8_unknown_insurer_behavior "Nimbus" rfl⟩

/-- C2: the two concrete cases of the spec. A 30-year-old driver with 10
license years and a Toyota worth 20000 gets, from StateFarm at the
standard tier, an annual premium of 2000.00 and a monthly premium of
166.67; from GEICO at the premium tier, an annual premium of 2500.00
(floored to 2500, times 0.95 = 2375, plus the 125 add-on total). -/
theorem c2_concrete_quotes :
    ((quoteOf (calculate_premium "Toyota" 20000 30 10 "StateFarm" "standard")).map
      (fun q => (q.annual_premium, q.monthly_premium))) = some (2000, 16667/100) ∧
    ((quoteOf (calculate_premium "Toyota" 20000 30 10 "GEICO" "premium")).map
      (fun q => q.annual_premium)) = some 2500 := by
  have hx : (20000 : ℚ) * (55/1000) * 1 * 1 * 1 = 1100 := by norm_num
  constructor
  · have h : (quoteOf (calculate_premium "Toyota" 20000 30 10 "StateFarm" "standard")).map
        (fun q => (q.annual_premium, q.monthly_premium)) =
        some (round2 (max ((20000 : ℚ) * (55/1000) * 1 * 1 * 1) 2000 * 1 + 0),
              round2 ((max ((20000 : ℚ) * (55/1000) * 1 * 1 * 1) 2000 * 1 + 0) / 12)) := rfl
    rw [h, hx, max_eq_right (by norm_num : (1100 : ℚ) ≤ 2000),
        show (2000 : ℚ) * 1 + 0 = 2000 by norm_num,
        round2_eq 2000 200000 (by norm_num) (by norm_num),
        round2_eq ((2000 : ℚ)/12) 16667 (by norm_num) (by norm_num)]
    norm_num
  · have hg : get_addon_total "GEICO" = 125 := by
      rw [show get_addon_total "GEICO" = ([50, 75] : List ℚ).sum from rfl]
      norm_num
    have h : (quoteOf (calculate_premium "Toyota" 20000 30 10 "GEICO" "premium")).map
        (fun q => q.annual_premium) =
        some (round2 (max ((20000 : ℚ) * (55/1000) * 1 * 1 * 1) 2500 * (95/100)
          + get_addon_total "GEICO")) := rfl
    rw [h, hg, hx, max_eq_right (by norm_num : (1100 : ℚ) ≤ 2500),
        show (2500 : ℚ) * (95/100) + 125 = 2500 by norm_num,
        round2_eq 2500 250000 (by norm_num) (by norm_num)]
    norm_num

/-- A successful lookup in the `INSURERS` table is one of the five
registered insurers. -/
theorem insurers_lookup_cases (s : String) (ins : Insurer)
    (h : INSURERS.lookup s = some ins) :
    (s = "GEICO" ∧ ins = geico) ∨ (s = "Progressive" ∧ ins = progressive) ∨
    (s = "StateFarm" ∧ ins = stateFarm) ∨ (s = "Allstate" ∧ ins = allstate) ∨
    (s = "Travelers" ∧ ins = travelers) := by
  simp only [INSURERS, List.lookup] at h
  split at h
  · exact Or.inl ⟨eq_of_beq (by assumption), (Option.some.inj h).symm⟩
  · split at h
    · exact Or.inr (Or.inl ⟨eq_of_beq (by assumption), (Option.some.inj h).symm⟩)
    · split at h
      · exact Or.inr (Or.inr (Or.inl ⟨eq_of_beq (by assumption), (Option.some.inj h).symm⟩))
      · split at h
        · exact Or.inr (Or.inr (Or.inr (Or.inl
            ⟨eq_of_beq (by assumption), (Option.some.inj h).symm⟩)))
        · split at h
          · exact Or.inr (Or.inr (Or.inr (Or.inr
              ⟨eq_of_beq (by assumption), (Option.some.inj h).symm⟩)))
          · cases h

/-- C3: at the premium tier `calculate_premium` bundles and charges the
annual cost of every add-on in the insurer's catalog and lists all of
them, appending the insurer's free special feature at zero cost when the
insurer has one; at every other known tier the add-on contribution is
zero and the returned add-on list is empty. -/
theorem c3_premium_addon_bundling (car_brand : String) (car_value : ℚ)
    (driver_age license_years : ℤ) (insurer_name tier : String)
    (ins : Insurer) (ti : CoverageTier)
    (hage : 18 ≤ driver_age) (hyears : 0 ≤ license_years)
    (hins : INSURERS.lookup insurer_name = some ins)
    (hti : COVERAGE_TIERS.lookup tier = some ti) :
    ∃ (rate am em : ℚ) (q : Quote),
      pyDictGet BRAND_RATES (some (get_brand_category car_brand)) = .ok rate ∧
      pyDictGet AGE_ADJUSTMENT (get_age_bracket driver_age) = .ok am ∧
      pyDictGet EXPERIENCE_ADJUSTMENT (get_experience_bracket license_years) = .ok em ∧
      calculate_premium car_brand car_value driver_age license_years insurer_name tier =
        .ok (.success q) ∧
      (tier = "premium" →
        q.add_ons.map (fun d => d.name) =
          ins.available_add_ons.map addonDisplayName ++
            (if ins.special_features.contains "concierge_claims_service"
             then ["Concierge Claims Service"] else []) ∧
        q.add_ons.map (fun d => d.cost) =
          ins.available_add_ons.map addonDisplayCost ++
            (if ins.special_features.contains "concierge_claims_service"
             then [0] else []) ∧
        q.annual_premium = round2
          (max (car_value * rate * am * em * ti.price_multiplier) ti.minimum_annual
              * ins.multiplier
            + (ins.available_add_ons.map addonDisplayCost).sum)) ∧
      (tier ≠ "premium" →
        q.add_ons = [] ∧
        q.annual_premium = round2
          (max (car_value * rate * am * em * ti.price_multiplier) ti.minimum_annual
              * ins.multiplier)) := by
  obtain ⟨rate, am, em, hr, ha, he, hc⟩ :=
    calculate_premium_spec car_brand car_value driver_age license_years insurer_name tier
      ins ti hage hyears hins hti
  refine ⟨rate, am, em, _, hr, ha, he, hc, ?_, ?_⟩
  · intro htp
    subst htp
    rcases insurers_lookup_cases _ _ hins with ⟨hs, hi⟩ | ⟨hs, hi⟩ | ⟨hs, hi⟩ | ⟨hs, hi⟩ | ⟨hs, hi⟩ <;>
      subst hs <;> subst hi <;>
      exact ⟨by dsimp only; decide, by dsimp only; decide, rfl⟩
  · intro htn
    have hb : (tier == "premium") = false := beq_eq_false_iff_ne.mpr htn
    exact ⟨by simp [hb], by simp [hb]⟩

/-- Witness for C3: Allstate (a three-add-on catalog, no special feature)
at the premium tier, for a 22-year-old novice driver with a Ford. -/
theorem c3_premium_addon_witness :
    (18 : ℤ) ≤ 22 ∧ (0 : ℤ) ≤ 1 ∧
    INSURERS.lookup "Allstate" = some allstate ∧
    COVERAGE_TIERS.lookup "premium" = some premiumTier ∧
    (∃ (rate am em : ℚ) (q : Quote),
      pyDictGet BRAND_RATES (some (get_brand_category "Ford")) = .ok rate ∧
      pyDictGet AGE_ADJUSTMENT (get_age_bracket 22) = .ok am ∧
      pyDictGet EXPERIENCE_ADJUSTMENT (get_experience_bracket 1) = .ok em ∧
      calculate_premium "Ford" 40000 22 1 "Allstate" "premium" = .ok (.success q) ∧
      (("premium" : String) = "premium" →
        q.add_ons.map (fun d => d.name) =
          allstate.available_add_ons.map addonDisplayName ++
            (if allstate.special_features.contains "concierge_claims_service"
             then ["Concierge Claims Service"] else []) ∧
        q.add_ons.map (fun d => d.cost) =
          allstate.available_add_ons.map addonDisplayCost ++
            (if allstate.special_features.contains "concierge_claims_service"
             then [0] else []) ∧
        q.annual_premium = round2
          (max ((40000 : ℚ) * rate * am * em * premiumTier.price_multiplier)
              premiumTier.minimum_annual * allstate.multiplier
            + (allstate.available_add_ons.map addonDisplayCost).sum)) ∧
      (("premium" : String) ≠ "premium" →
        q.add_ons = [] ∧
        q.annual_premium = round2
          (max ((40000 : ℚ) * rate * am * em * premiumTier.price_multiplier)
              premiumTier.minimum_annual * allstate.multiplier))) :=
  ⟨by norm_num, by norm_num, rfl, rfl,
    c3_premium_addon_bundling "Ford" 40000 22 1 "Allstate" "premium"
      allstate premiumTier (by norm_num) (by norm_num) rfl rfl⟩

/-- C9 counterexample: for Travelers the premium-tier quote's internal
add-on list and the Add-on Resolver's name list do not carry the same
names: the former ends in "Concierge Claims Service", the latter in
"Concierge Service (FREE)". -/
theorem c9_counterexample_travelers_labels :
    (quoteOf (calculate_premium "Toyota" 20000 30 10 "Travelers" "premium")).map
      (fun q => q.add_ons.map (fun d => d.name)) ≠ some (get_addon_names "Travelers") := by
  decide

/-- C9 (amended): for every known insurer and valid input, the premium-tier
quote's add-on names and the Add-on Resolver's names agree on all catalog
add-ons, in order; both append exactly one zero-cost free-feature entry for
Travelers, but under different labels ("Concierge Claims Service" in the
Calculator's list, "Concierge Service (FREE)" in the Resolver's list), so
for every insurer other than Travelers the two name lists are equal. -/
theorem c9_addon_name_consistency (car_brand : String) (car_value : ℚ)
    (driver_age license_years : ℤ) (insurer_name : String) (ins : Insurer)
    (hage : 18 ≤ driver_age) (hyears : 0 ≤ license_years)
    (hins : INSURERS.lookup insurer_name = some ins) :
    ∃ q : Quote,
      calculate_premium car_brand car_value driver_age license_years insurer_name "premium" =
        .ok (.success q) ∧
      q.add_ons.map (fun d => d.name) =
        ins.available_add_ons.map addonDisplayName ++
          (if insurer_name == "Travelers" then ["Concierge Claims Service"] else []) ∧
      get_addon_names insurer_name =
        ins.available_add_ons.map addonDisplayName ++
          (if insurer_name == "Travelers" then ["Concierge Service (FREE)"] else []) ∧
      (insurer_name ≠ "Travelers" →
        q.add_ons.map (fun d => d.name) = get_addon_names insurer_name) := by
  obtain ⟨rate, am, em, hr, ha, he, hc⟩ :=
    calculate_premium_spec car_brand car_value driver_age license_years insurer_name "premium"
      ins premiumTier hage hyears hins rfl
  refine ⟨_, hc, ?_⟩
  rcases insurers_lookup_cases _ _ hins with ⟨hs, hi⟩ | ⟨hs, hi⟩ | ⟨hs, hi⟩ | ⟨hs, hi⟩ | ⟨hs, hi⟩ <;>
    subst hs <;> subst hi <;>
    refine ⟨by dsimp only; decide, by decide, ?_⟩ <;>
    intro hne <;> first | (dsimp only; decide) | exact absurd rfl hne

/-- Witness for C9 at StateFarm (no special feature), with a concrete
valid driver and car. -/
theorem c9_addon_name_witness :
    (18 : ℤ) ≤ 30 ∧ (0 : ℤ) ≤ 10 ∧
    INSURERS.lookup "StateFarm" = some stateFarm ∧
    (∃ q : Quote,
      calculate_premium "Toyota" 20000 30 10 "StateFarm" "premium" = .ok (.success q) ∧
      q.add_ons.map (fun d => d.name) =
        stateFarm.available_add_ons.map addonDisplayName ++
          (if ("StateFarm" : String) == "Travelers" then ["Concierge Claims Service"] else []) ∧
      get_addon_names "StateFarm" =
        stateFarm.available_add_ons.map addonDisplayName ++
          (if ("StateFarm" : String) == "Travelers" then ["Concierge Service (FREE)"] else []) ∧
      (("StateFarm" : String) ≠ "Travelers" →
        q.add_ons.map (fun d => d.name) = get_addon_names "StateFarm")) :=
  ⟨by norm_num, by norm_num, rfl,
    c9_addon_name_consistency "Toyota" 20000 30 10 "StateFarm" stateFarm
      (by norm_num) (by norm_num) rfl⟩

/-- `.ok` bind reduction for the `Except` monad. -/
theorem except_ok_bind {α β : Type} (a : α) (f : α → Except String β) :
    (Except.ok a : Except String α) >>= f = f a := rfl

/-- `.ok` map reduction for the `Except` monad. -/
theorem except_map_ok {α β : Type} (a : α) (f : α → β) :
    Except.map f (Except.ok a : Except String α) = .ok (f a) := rfl

/-- The sort comparison of `get_insurance_quotes` is transitive. -/
theorem aggLe_trans : ∀ a b c : AggQuote,
    aggLe a b = true → aggLe b c = true → aggLe a c = true := by
  intro a b c hab hbc
  simp only [aggLe, decide_eq_true_eq] at *
  exact le_trans hab hbc

/-- The sort comparison of `get_insurance_quotes` is total. -/
theorem aggLe_total : ∀ a b : AggQuote, (aggLe a b || aggLe b a) = true := by
  intro a b
  simp only [aggLe, Bool.or_eq_true, decide_eq_true_eq]
  exact le_total _ _

/-- The stable ascending sort leaves its output pairwise ordered by annual
premium. -/
theorem mergeSort_agg_sorted (l : List AggQuote) :
    List.Pairwise (fun a b => a.annual_premium ≤ b.annual_premium) (l.mergeSort aggLe) :=
  (List.sorted_mergeSort aggLe_trans aggLe_total l).imp (fun h => of_decide_eq_true h)

/-- Stability of the sort: among quotes with any one annual premium the
sorted output preserves the input order. -/
theorem mergeSort_agg_filter_value (l : List AggQuote) (v : ℚ) :
    (l.mergeSort aggLe).filter (fun q => q.annual_premium == v) =
      l.filter (fun q => q.annual_premium == v) := by
  have hpair : (l.filter (fun q => q.annual_premium == v)).Pairwise
      (fun a b => aggLe a b = true) := by
    apply List.pairwise_of_forall_mem_list
    intro a ha b hb
    have ha3 : a.annual_premium = v := by simpa using (List.mem_filter.mp ha).2
    have hb3 : b.annual_premium = v := by simpa using (List.mem_filter.mp hb).2
    simp [aggLe, ha3, hb3]
  have hsub : (l.filter (fun q => q.annual_premium == v)).Sublist (l.mergeSort aggLe) :=
    List.sublist_mergeSort aggLe_trans aggLe_total hpair (List.filter_sublist l)
  have hsub2 : (l.filter (fun q => q.annual_premium == v)).Sublist
      ((l.mergeSort aggLe).filter (fun q => q.annual_premium == v)) := by
    have h3 := List.Sublist.filter (fun q => q.annual_premium == v) hsub
    rwa [List.filter_eq_self.mpr (fun a ha => (List.mem_filter.mp ha).2)] at h3
  have hperm : ((l.mergeSort aggLe).filter (fun q => q.annual_premium == v)).Perm
      (l.filter (fun q => q.annual_premium == v)) :=
    (List.mergeSort_perm l aggLe).filter _
  exact (hsub2.eq_of_length hperm.length_eq.symm).symm

/-- On every input that passes the aggregator's preconditions, the inner
per-insurer loop succeeds for a known tier and produces exactly one quote
per registered insurer, in registration order. -/
theorem tier_quotes_ok (car_brand : String) (car_value : ℚ)
    (driver_age license_years : ℤ) (tier : String) (ti : CoverageTier)
    (hage : 18 ≤ driver_age) (hyears : 0 ≤ license_years)
    (hti : COVERAGE_TIERS.lookup tier = some ti) :
    ∃ l : List AggQuote,
      tier_quotes_unsorted car_brand car_value driver_age license_years tier = .ok l ∧
      l.map (fun q => q.insurer) =
        ["GEICO", "Progressive", "StateFarm", "Allstate", "Travelers"] := by
  obtain ⟨r1, a1, e1, _, _, _, h1⟩ := calculate_premium_spec car_brand car_value driver_age
    license_years "GEICO" tier geico ti hage hyears rfl hti
  obtain ⟨r2, a2, e2, _, _, _, h2⟩ := calculate_premium_spec car_brand car_value driver_age
    license_years "Progressive" tier progressive ti hage hyears rfl hti
  obtain ⟨r3, a3, e3, _, _, _, h3⟩ := calculate_premium_spec car_brand car_value driver_age
    license_years "StateFarm" tier stateFarm ti hage hyears rfl hti
  obtain ⟨r4, a4, e4, _, _, _, h4⟩ := calculate_premium_spec car_brand car_value driver_age
    license_years "Allstate" tier allstate ti hage hyears rfl hti
  obtain ⟨r5, a5, e5, _, _, _, h5⟩ := calculate_premium_spec car_brand car_value driver_age
    license_years "Travelers" tier travelers ti hage hyears rfl hti
  unfold tier_quotes_unsorted
  simp only [show INSURERS.map (fun p => p.1) =
      ["GEICO", "Progressive", "StateFarm", "Allstate", "Travelers"] from rfl,
    List.mapM_cons, List.mapM_nil, h1, h2, h3, h4, h5, except_ok_bind]
  exact ⟨_, rfl, rfl⟩

/-- Reduction of `get_insurance_quotes` under the `"all"` selector
(matched case-insensitively): it returns exactly the three tier keys in
order, each carrying the stable sort of the per-insurer loop's output. -/
theorem get_insurance_quotes_all_spec (car_brand : String) (car_value : ℚ)
    (driver_age license_years : ℤ) (sel : String)
    (hage : 18 ≤ driver_age) (hval : 0 < car_value) (hyears : 0 ≤ license_years)
    (hsel : strLower sel = "all") :
    ∃ bl bs bp : List AggQuote,
      tier_quotes_unsorted car_brand car_value driver_age license_years "liability" = .ok bl ∧
      tier_quotes_unsorted car_brand car_value driver_age license_years "standard" = .ok bs ∧
      tier_quotes_unsorted car_brand car_value driver_age license_years "premium" = .ok bp ∧
      get_insurance_quotes car_brand car_value driver_age license_years sel =
        .ok (.success car_brand car_value
          [("liability", bl.mergeSort aggLe), ("standard", bs.mergeSort aggLe),
           ("premium", bp.mergeSort aggLe)]) ∧
      bl.map (fun q => q.insurer) =
        ["GEICO", "Progressive", "StateFarm", "Allstate", "Travelers"] ∧
      bs.map (fun q => q.insurer) =
        ["GEICO", "Progressive", "StateFarm", "Allstate", "Travelers"] ∧
      bp.map (fun q => q.insurer) =
        ["GEICO", "Progressive", "StateFarm", "Allstate", "Travelers"] := by
  obtain ⟨bl, hbl, hml⟩ := tier_quotes_ok car_brand car_value driver_age license_years
    "liability" liabilityTier hage hyears rfl
  obtain ⟨bs, hbs, hms⟩ := tier_quotes_ok car_brand car_value driver_age license_years
    "standard" standardTier hage hyears rfl
  obtain ⟨bp, hbp, hmp⟩ := tier_quotes_ok car_brand car_value driver_age license_years
    "premium" premiumTier hage hyears rfl
  refine ⟨bl, bs, bp, hbl, hbs, hbp, ?_, hml, hms, hmp⟩
  have hts : selected_tiers sel = some ["liability", "standard", "premium"] := by
    unfold selected_tiers
    rw [hsel]
    rfl
  unfold get_insurance_quotes
  rw [if_neg (by omega), if_neg (not_le.mpr hval), hts]
  simp only [List.mapM_cons, List.mapM_nil, hbl, hbs, hbp, except_map_ok, except_ok_bind]
  rfl

/-- Reduction of `get_insurance_quotes` under a single known-tier selector
(matched case-insensitively): the result holds exactly that tier's key,
carrying the stable sort of the per-insurer loop's output. -/
theorem get_insurance_quotes_single_spec (car_brand : String) (car_value : ℚ)
    (driver_age license_years : ℤ) (sel t : String)
    (hage : 18 ≤ driver_age) (hval : 0 < car_value) (hyears : 0 ≤ license_years)
    (ht : t = "liability" ∨ t = "standard" ∨ t = "premium")
    (hsel : strLower sel = t) :
    ∃ base : List AggQuote,
      tier_quotes_unsorted car_brand car_value driver_age license_years t = .ok base ∧
      get_insurance_quotes car_brand car_value driver_age license_years sel =
        .ok (.success car_brand car_value [(t, base.mergeSort aggLe)]) ∧
      base.map (fun q => q.insurer) =
        ["GEICO", "Progressive", "StateFarm", "Allstate", "Travelers"] := by
  have hti : ∃ ti, COVERAGE_TIERS.lookup t = some ti := by
    rcases ht with h | h | h <;> subst h <;> exact ⟨_, rfl⟩
  obtain ⟨ti, hti⟩ := hti
  obtain ⟨base, hb, hm⟩ := tier_quotes_ok car_brand car_value driver_age license_years
    t ti hage hyears hti
  have hts : selected_tiers sel = some [t] := by
    unfold selected_tiers
    rw [hsel]
    rcases ht with h | h | h <;> subst h <;> rfl
  refine ⟨base, hb, ?_, hm⟩
  unfold get_insurance_quotes
  rw [if_neg (by omega), if_neg (not_le.mpr hval), hts]
  simp only [List.mapM_cons, List.mapM_nil, hb, except_map_ok, except_ok_bind]
  rfl

/-- C5: with the "all" selector (matched case-insensitively) the aggregator
returns exactly the three tier keys liability, standard, premium; within
each tier the quote list is ascending by annual premium, and it is the
stable sort of the per-insurer loop's registration-order output, so ties
keep registration order; the result is a pure function of the inputs and
hence deterministic. -/
theorem c5_all_selector_three_sorted_tiers (car_brand : String) (car_value : ℚ)
    (driver_age license_years : ℤ) (sel : String)
    (hage : 18 ≤ driver_age) (hval : 0 < car_value) (hyears : 0 ≤ license_years)
    (hsel : strLower sel = "all") :
    ∃ ql : List (String × List AggQuote),
      get_insurance_quotes car_brand car_value driver_age license_years sel =
        .ok (.success car_brand car_value ql) ∧
      ql.map Prod.fst = ["liability", "standard", "premium"] ∧
      ∀ t out, (t, out) ∈ ql →
        List.Pairwise (fun a b => a.annual_premium ≤ b.annual_premium) out ∧
        ∃ base,
          tier_quotes_unsorted car_brand car_value driver_age license_years t = .ok base ∧
          out = base.mergeSort aggLe ∧
          ∀ v : ℚ, out.filter (fun q => q.annual_premium == v) =
                   base.filter (fun q => q.annual_premium == v) := by
  obtain ⟨bl, bs, bp, hbl, hbs, hbp, hq, _, _, _⟩ :=
    get_insurance_quotes_all_spec car_brand car_value driver_age license_years sel
      hage hval hyears hsel
  refine ⟨_, hq, rfl, ?_⟩
  intro t out hmem
  simp only [List.mem_cons, List.not_mem_nil, or_false] at hmem
  rcases hmem with h | h | h <;> obtain ⟨rfl, rfl⟩ := Prod.mk.inj h
  · exact ⟨mergeSort_agg_sorted bl, bl, hbl, rfl, fun v => mergeSort_agg_filter_value bl v⟩
  · exact ⟨mergeSort_agg_sorted bs, bs, hbs, rfl, fun v => mergeSort_agg_filter_value bs v⟩
  · exact ⟨mergeSort_agg_sorted bp, bp, hbp, rfl, fun v => mergeSort_agg_filter_value bp v⟩

/-- Witness for C5 at a concrete input, with the selector written "ALL" to
exercise the case-insensitive match. -/
theorem c5_all_selector_witness :
    (18 : ℤ) ≤ 30 ∧ (0 : ℚ) < 20000 ∧ (0 : ℤ) ≤ 10 ∧ strLower "ALL" = "all" ∧
    (∃ ql : List (String × List AggQuote),
      get_insurance_quotes "Toyota" 20000 30 10 "ALL" =
        .ok (.success "Toyota" 20000 ql) ∧
      ql.map Prod.fst = ["liability", "standard", "premium"] ∧
      ∀ t out, (t, out) ∈ ql →
        List.Pairwise (fun a b => a.annual_premium ≤ b.annual_premium) out ∧
        ∃ base,
          tier_quotes_unsorted "Toyota" 20000 30 10 t = .ok base ∧
          out = base.mergeSort aggLe ∧
          ∀ v : ℚ, out.filter (fun q => q.annual_premium == v) =
                   base.filter (fun q => q.annual_premium == v)) :=
  ⟨by norm_num, by norm_num, by norm_num, by decide,
    c5_all_selector_three_sorted_tiers "Toyota" 20000 30 10 "ALL"
      (by norm_num) (by norm_num) (by norm_num) (by decide)⟩

/-- C10 (implicit): on every input passing the aggregator's preconditions
(age at least 18, positive car value, non-negative license years, a tier
selector that is "all" or one of the three tiers), every requested tier's
list carries exactly one quote per registered insurer — all five — so the
error-dropping branch never removes an insurer. -/
theorem c10_every_insurer_quoted (car_brand : String) (car_value : ℚ)
    (driver_age license_years : ℤ) (sel : String)
    (hage : 18 ≤ driver_age) (hval : 0 < car_value) (hyears : 0 ≤ license_years)
    (hsel : strLower sel = "all" ∨ strLower sel = "liability" ∨
            strLower sel = "standard" ∨ strLower sel = "premium") :
    ∃ ql : List (String × List AggQuote),
      get_insurance_quotes car_brand car_value driver_age license_years sel =
        .ok (.success car_brand car_value ql) ∧
      ql ≠ [] ∧
      ∀ t out, (t, out) ∈ ql →
        out.length = 5 ∧
        (out.map (fun q => q.insurer)).Perm
          ["GEICO", "Progressive", "StateFarm", "Allstate", "Travelers"] := by
  have key : ∀ base : List AggQuote,
      base.map (fun q => q.insurer) =
        ["GEICO", "Progressive", "StateFarm", "Allstate", "Travelers"] →
      (base.mergeSort aggLe).length = 5 ∧
      ((base.mergeSort aggLe).map (fun q => q.insurer)).Perm
        ["GEICO", "Progressive", "StateFarm", "Allstate", "Travelers"] := by
    intro base hb
    have hp : ((base.mergeSort aggLe).map (fun q => q.insurer)).Perm
        (base.map (fun q => q.insurer)) := (List.mergeSort_perm base aggLe).map _
    constructor
    · have h2 := hp.length_eq
      rw [hb] at h2
      simpa using h2
    · rw [hb] at hp
      exact hp
  rcases hsel with hsel | hsel | hsel | hsel
  · obtain ⟨bl, bs, bp, _, _, _, hq, hml, hms, hmp⟩ :=
      get_insurance_quotes_all_spec car_brand car_value driver_age license_years sel
        hage hval hyears hsel
    refine ⟨_, hq, by simp, ?_⟩
    intro t out hmem
    simp only [List.mem_cons, List.not_mem_nil, or_false] at hmem
    rcases hmem with h | h | h <;> obtain ⟨rfl, rfl⟩ := Prod.mk.inj h
    · exact key bl hml
    · exact key bs hms
    · exact key bp hmp
  all_goals {
    obtain ⟨base, _, hq, hm⟩ :=
      get_insurance_quotes_single_spec car_brand car_value driver_age license_years sel _
        hage hval hyears (by simp) hsel
    refine ⟨_, hq, by simp, ?_⟩
    intro t out hmem
    simp only [List.mem_cons, List.not_mem_nil, or_false] at hmem
    obtain ⟨rfl, rfl⟩ := Prod.mk.inj hmem
    exact key base hm }

/-- Witness for C10 at a concrete input, with the selector written
"Standard" to exercise a single case-insensitive tier selector. -/
theorem c10_every_insurer_witness :
    (18 : ℤ) ≤ 30 ∧ (0 : ℚ) < 20000 ∧ (0 : ℤ) ≤ 10 ∧
    (strLower "Standard" = "all" ∨ strLower "Standard" = "liability" ∨
     strLower "Standard" = "standard" ∨ strLower "Standard" = "premium") ∧
    (∃ ql : List (String × List AggQuote),
      get_insurance_quotes "Toyota" 20000 30 10 "Standard" =
        .ok (.success "Toyota" 20000 ql) ∧
      ql ≠ [] ∧
      ∀ t out, (t, out) ∈ ql →
        out.length = 5 ∧
        (out.map (fun q => q.insurer)).Perm
          ["GEICO", "Progressive", "StateFarm", "Allstate", "Travelers"]) :=
  ⟨by norm_num, by norm_num, by norm_num, Or.inr (Or.inr (Or.inl (by decide))),
    c10_every_insurer_quoted "Toyota" 20000 30 10 "Standard"
      (by norm_num) (by norm_num) (by norm_num) (Or.inr (Or.inr (Or.inl (by decide))))⟩
